import Mathlib

/-!
Verification of the fleet configuration orchestrator of the
Network-Automation repository.  The Python scripts under scripts/
(configure_interfaces.py, configure_routing.py, configure_vlans.py,
backup_configs.py) are shallowly embedded below: the pure command
generators become Lean functions on typed specs, and the per-device
workflows become functions from an explicit device behaviour (the
results the external netmiko session returns, or the exceptions it
raises) to a run record describing the control flow taken by the code.
-/

/-- Result of one call into the external session layer: either the call
returns text, or it raises an exception carrying a message.  This models
netmiko calls such as ConnectHandler, send_command and send_config_set,
and also the OS-level file writes of the backup script. -/
inductive CallResult where
  | ok (text : String)
  | exn (msg : String)
deriving DecidableEq, Repr

/-- Aggregated success and failure counters of one run, mirroring the
success_count and fail_count variables of each main function. -/
structure RunSummary where
  success : Nat
  fail : Nat
deriving DecidableEq, Repr

/-- Per-device classification of one pass through a workflow, as the
main loops record it: counted successful, counted failed, or skipped
without touching either counter. -/
inductive Outcome where
  | success
  | failure
  | skipped
deriving DecidableEq, Repr

/-- Exit status computed by every main function of the repository, from
the line return 0 if fail_count == 0 else 1. -/
def exitOf (failCount : Nat) : Nat :=
  if failCount = 0 then 0 else 1

/-- Shared accumulation loop of the mains whose per-device result is a
boolean: count a success when the workflow returns True, a failure when
it returns False.  Mirrors the if connect_and_configure(...) pattern of
configure_routing.py, configure_vlans.py and the backup main. -/
def boolTally (f : α → Bool) (l : List α) : RunSummary :=
  l.foldl
    (fun acc x =>
      if f x then ⟨acc.success + 1, acc.fail⟩ else ⟨acc.success, acc.fail + 1⟩)
    ⟨0, 0⟩

/-- Accumulation loop of configure_interfaces.py main, which can also
skip a device entirely (continue) when it has no interface entries. -/
def outcomeTally (f : α → Outcome) (l : List α) : RunSummary :=
  l.foldl
    (fun acc x =>
      match f x with
      | Outcome.skipped => acc
      | Outcome.success => ⟨acc.success + 1, acc.fail⟩
      | Outcome.failure => ⟨acc.success, acc.fail + 1⟩)
    ⟨0, 0⟩

/-! ## Data model -/

/-- Inventory entry for one device: the fields of the inventory used by
the orchestrator beyond connection parameters. -/
structure Router where
  name : String
  ip : String
deriving DecidableEq, Repr

/-- Declarative description of one interface, from configs/interfaces.yml.
The enabled field is optional in the YAML; the code reads it with
interface_config.get with default True. -/
structure InterfaceSpec where
  name : String
  ip_address : String
  subnet_mask : String
  description : String
  enabled : Option Bool
deriving DecidableEq, Repr

/-- Declarative description of one VLAN subinterface, from
configs/vlans.yml. -/
structure SubinterfaceSpec where
  interface : String
  vlan : Nat
  ip_address : String
  subnet_mask : String
  description : String
deriving DecidableEq, Repr

/-- One network statement of an OSPF area: network address plus wildcard
mask. -/
structure NetworkEntry where
  network : String
  wildcard : String
deriving DecidableEq, Repr

/-- One area block of the OSPF configuration for one device: the area id
and its ordered list of network statements. -/
structure AreaConfig where
  area : Nat
  networks : List NetworkEntry
deriving DecidableEq, Repr

/-- OSPF section of configs/routing.yml: process id, a per-device
router-id map, and per-device ordered area lists. -/
structure OspfConfig where
  process_id : Nat
  router_id_map : List (String × String)
  areas : List (String × List AreaConfig)
deriving DecidableEq, Repr

/-- EIGRP section of configs/routing.yml. -/
structure EigrpConfig where
  as_number : Nat
  networks : List (String × List NetworkEntry)
deriving DecidableEq, Repr

/-- Routing configuration: the enabled flags read by main and
connect_and_configure, plus the protocol sections. -/
structure RoutingConfig where
  ospfEnabled : Bool
  eigrpEnabled : Bool
  ospf : OspfConfig
  eigrp : EigrpConfig
deriving DecidableEq, Repr

/-! ## Command generators

The command-building halves of configure_interface, configure_subinterface,
configure_ospf and configure_eigrp: the Python functions first build the
commands list and then hand it to send_config_set; the list construction
is embedded here verbatim. -/

/-- Commands built by configure_interface in configure_interfaces.py
lines 52-62. -/
def configure_interface_commands (c : InterfaceSpec) : List String :=
  ["interface " ++ c.name,
   "ip address " ++ c.ip_address ++ " " ++ c.subnet_mask,
   "description " ++ c.description,
   if c.enabled.getD true then "no shutdown" else "shutdown"]

/-- Commands built by configure_subinterface in configure_vlans.py
lines 52-59.  The source performs no validation of the vlan id. -/
def configure_subinterface_commands (s : SubinterfaceSpec) : List String :=
  ["interface " ++ s.interface,
   "encapsulation dot1Q " ++ toString s.vlan,
   "ip address " ++ s.ip_address ++ " " ++ s.subnet_mask,
   "description " ++ s.description,
   "no shutdown"]

/-- Commands built by configure_ospf in configure_routing.py lines 52-67.
The router-id lookup uses dict.get, and the emptiness test if router_id
is Python truthiness: the line is emitted only when the lookup finds a
value that is a non-empty string. -/
def configure_ospf_commands (router_name : String) (cfg : OspfConfig) : List String :=
  let router_id := cfg.router_id_map.lookup router_name
  let head := ["router ospf " ++ toString cfg.process_id]
  let ridLine :=
    match router_id with
    | some rid => if rid = "" then [] else ["router-id " ++ rid]
    | none => []
  let areas := (cfg.areas.lookup router_name).getD []
  let nets :=
    areas.flatMap
      (fun ac =>
        ac.networks.map
          (fun n =>
            "network " ++ n.network ++ " " ++ n.wildcard ++ " area " ++ toString ac.area))
  head ++ ridLine ++ nets

/-- Commands built by configure_eigrp in configure_routing.py lines 78-89. -/
def configure_eigrp_commands (router_name : String) (cfg : EigrpConfig) : List String :=
  let head := ["router eigrp " ++ toString cfg.as_number, "no auto-summary"]
  let nets :=
    ((cfg.networks.lookup router_name).getD []).map
      (fun n => "network " ++ n.network ++ " " ++ n.wildcard)
  head ++ nets

/-! ## Per-device workflows

Each connect_and_configure function (and backup_router_config) is
embedded as a function from the behaviour of the external session layer
to a record of the run: whether the workflow ran to the end of its try
block and returned True, whether a session was opened, and whether
disconnect was executed.  Exceptions raised by calls that are wrapped in
the inner try of a command generator are swallowed there (the generator
returns False and the workflow continues); exceptions raised by the
calls made directly inside the outer try of connect_and_configure
propagate to its except clause, which returns False without calling
disconnect. -/

/-- Behaviour of the session layer during one interface workflow device:
the result of ConnectHandler plus enable, of each send_config_set issued
by configure_interface (consumed in order), and of the write memory
send_command. -/
structure IfaceBehavior where
  connect : CallResult
  applies : List CallResult
  save : CallResult
deriving DecidableEq, Repr

/-- Run record of one interface workflow device. -/
structure IfaceRun where
  result : Bool
  opened : Bool
  closed : Bool
  interfaceResults : List (Bool × String)
deriving DecidableEq, Repr

/-- Success flag and detail returned by configure_interface for one
send_config_set result: its try catches the exception, so a failure is
reported as False and never propagates. -/
def configure_interface_result : CallResult → Bool × String
  | CallResult.ok out => (true, out)
  | CallResult.exn e => (false, e)

/-- Embedding of connect_and_configure in configure_interfaces.py lines
71-113: connect, loop over the interfaces (failures of a single
interface are swallowed by configure_interface), save via write memory,
disconnect, return True.  A raised error at connect or save reaches the
except clause, which returns False without disconnecting. -/
def ifaceConnectAndConfigure (b : IfaceBehavior) (specs : List InterfaceSpec) : IfaceRun :=
  match b.connect with
  | CallResult.exn _ => ⟨false, false, false, []⟩
  | CallResult.ok _ =>
    let rs := (specs.zip b.applies).map (fun p => configure_interface_result p.2)
    match b.save with
    | CallResult.exn _ => ⟨false, true, false, rs⟩
    | CallResult.ok _ => ⟨true, true, true, rs⟩

/-- One fleet entry of the interface workflow: inventory name plus the
session behaviour of this device. -/
structure IfaceDevice where
  name : String
  behavior : IfaceBehavior
deriving DecidableEq, Repr

/-- Outcome recorded by the main loop of configure_interfaces.py lines
137-150 for one device: devices whose interface list is absent or empty
are skipped with a warning (continue), the others are counted by the
boolean the workflow returns. -/
def ifaceDeviceOutcome (mapping : List (String × List InterfaceSpec))
    (d : IfaceDevice) : Outcome :=
  let specs := (mapping.lookup d.name).getD []
  if specs.isEmpty then Outcome.skipped
  else if (ifaceConnectAndConfigure d.behavior specs).result then Outcome.success
  else Outcome.failure

/-- Counters accumulated by the main loop of configure_interfaces.py. -/
def ifaceSummary (mapping : List (String × List InterfaceSpec))
    (fleet : List IfaceDevice) : RunSummary :=
  outcomeTally (ifaceDeviceOutcome mapping) fleet

/-- Exit status of the interface workflow main. -/
def ifaceMainExit (mapping : List (String × List InterfaceSpec))
    (fleet : List IfaceDevice) : Nat :=
  exitOf (ifaceSummary mapping fleet).fail

/-- Behaviour of the session layer during one VLAN workflow device. -/
structure VlanBehavior where
  connect : CallResult
  applies : List CallResult
  verify : CallResult
  save : CallResult
deriving DecidableEq, Repr

/-- Run record of one VLAN workflow device; sent collects the command
sets submitted through send_config_set. -/
structure VlanRun where
  result : Bool
  opened : Bool
  closed : Bool
  sent : List (List String)
deriving DecidableEq, Repr

/-- One fleet entry of the VLAN workflow. -/
structure VlanDevice where
  name : String
  behavior : VlanBehavior
deriving DecidableEq, Repr

/-- Embedding of connect_and_configure in configure_vlans.py lines
68-125: connect first, then look up the subinterfaces of this device; an
absent or empty entry disconnects and returns True immediately.
Otherwise every subinterface command set is submitted (failures of a
single set are swallowed by configure_subinterface), then the
verification send_command and the write memory send_command run inside
the outer try: an exception from either reaches the except clause and
returns False without disconnecting. -/
def vlanConnectAndConfigure (vcfg : List (String × List SubinterfaceSpec))
    (d : VlanDevice) : VlanRun :=
  match d.behavior.connect with
  | CallResult.exn _ => ⟨false, false, false, []⟩
  | CallResult.ok _ =>
    let subs := (vcfg.lookup d.name).getD []
    if subs.isEmpty then ⟨true, true, true, []⟩
    else
      let sent := subs.map configure_subinterface_commands
      match d.behavior.verify with
      | CallResult.exn _ => ⟨false, true, false, sent⟩
      | CallResult.ok _ =>
        match d.behavior.save with
        | CallResult.exn _ => ⟨false, true, false, sent⟩
        | CallResult.ok _ => ⟨true, true, true, sent⟩

/-- Counters accumulated by the main loop of configure_vlans.py. -/
def vlanSummary (vcfg : List (String × List SubinterfaceSpec))
    (fleet : List VlanDevice) : RunSummary :=
  boolTally (fun d => (vlanConnectAndConfigure vcfg d).result) fleet

/-- Exit status of the VLAN workflow main. -/
def vlanMainExit (vcfg : List (String × List SubinterfaceSpec))
    (fleet : List VlanDevice) : Nat :=
  exitOf (vlanSummary vcfg fleet).fail

/-- Behaviour of the session layer during one routing workflow device. -/
structure RoutingBehavior where
  connect : CallResult
  ospfApply : CallResult
  eigrpApply : CallResult
  verify : CallResult
  save : CallResult
deriving DecidableEq, Repr

/-- Run record of one routing workflow device. -/
structure RoutingRun where
  result : Bool
  opened : Bool
  closed : Bool
deriving DecidableEq, Repr

/-- Embedding of connect_and_configure in configure_routing.py lines
98-156: connect, optional OSPF and EIGRP applications whose
send_config_set exceptions are swallowed inside configure_ospf and
configure_eigrp, then the show ip route verification and the write
memory save, both executed by send_command directly inside the outer
try: an exception from either reaches the except clause and returns
False without disconnecting. -/
def routingConnectAndConfigure (cfg : RoutingConfig) (b : RoutingBehavior) : RoutingRun :=
  match b.connect with
  | CallResult.exn _ => ⟨false, false, false⟩
  | CallResult.ok _ =>
    match b.verify with
    | CallResult.exn _ => ⟨false, true, false⟩
    | CallResult.ok _ =>
      match b.save with
      | CallResult.exn _ => ⟨false, true, false⟩
      | CallResult.ok _ => ⟨true, true, true⟩

/-- Counters accumulated by the device loop of configure_routing.py. -/
def routingSummary (cfg : RoutingConfig) (fleet : List RoutingBehavior) : RunSummary :=
  boolTally (fun b => (routingConnectAndConfigure cfg b).result) fleet

/-- Outcome list of the routing device loop, one entry per device. -/
def routingOutcomes (cfg : RoutingConfig) (fleet : List RoutingBehavior) : List RoutingRun :=
  fleet.map (routingConnectAndConfigure cfg)

/-- Embedding of main in configure_routing.py lines 158-205: when
neither protocol is enabled the function warns and returns 0 before
touching any device; otherwise it runs the device loop and returns the
usual exit status.  The second component is the list of per-device runs,
empty exactly when no device was contacted. -/
def routingMain (cfg : RoutingConfig) (fleet : List RoutingBehavior) :
    Nat × List RoutingRun :=
  if cfg.ospfEnabled || cfg.eigrpEnabled then
    (exitOf (routingSummary cfg fleet).fail, routingOutcomes cfg fleet)
  else
    (0, [])

/-! ## Backup workflow -/

/-- Behaviour of the session layer and the filesystem during one backup
device: ConnectHandler plus enable, the three send_command calls, and
whether the two file writes succeed (an OS error during writing would be
caught by the same catch-all except clause). -/
structure BackupBehavior where
  connect : CallResult
  showRun : CallResult
  showVersion : CallResult
  showHostname : CallResult
  writeOk : Bool

/-- A flat model of the backup directory: file name to file content. -/
def FileStore : Type := String → Option String

/-- Writing one file: the named entry is replaced, everything else is
untouched.  Re-writing an existing name overwrites it. -/
def setFile (store : FileStore) (name content : String) : FileStore :=
  fun k => if k = name then some content else store k

/-- Timestamped artifact name, backup_configs.py line 79. -/
def timestampedName (r : Router) (ts : String) : String :=
  r.name ++ "_" ++ ts ++ ".txt"

/-- Rolling artifact name, backup_configs.py line 83. -/
def latestName (r : Router) : String :=
  r.name ++ "_latest.txt"

/-- The seven header lines written by backup_router_config before the
configuration text (each f.write call of lines 89-95 ends the line with
a newline character, which joinNl appends). -/
def headerLines (date_str : String) (r : Router) (version_info : String) : List String :=
  ["! Backup Date: " ++ date_str,
   "! Router: " ++ r.name,
   "! IP Address: " ++ r.ip,
   "! " ++ version_info,
   "!",
   "! " ++ String.mk (List.replicate 70 '-'),
   "!"]

/-- Join a list of lines, terminating every line with a newline. -/
def joinNl (ls : List String) : String :=
  ls.foldr (fun l acc => l ++ "\n" ++ acc) ""

/-- Full content of a backup artifact: the header followed by the raw
configuration text, exactly as the sequence of f.write calls of
backup_configs.py lines 89-96 produces it. -/
def backupArtifact (date_str : String) (r : Router) (version_info running_config : String) :
    String :=
  joinNl (headerLines date_str r version_info) ++ running_config

/-- Drop everything up to and including the n-th newline character. -/
def dropLinesList : Nat → List Char → List Char
  | 0, cs => cs
  | _ + 1, [] => []
  | n + 1, c :: cs => if c = '\n' then dropLinesList n cs else dropLinesList (n + 1) cs

/-- Strip the first n lines of a string. -/
def dropLines (n : Nat) (s : String) : String :=
  String.mk (dropLinesList n s.data)

/-- Run record of one backup device. -/
structure BackupRun where
  result : Bool
  filename : Option String
  opened : Bool
  closed : Bool
  store : FileStore

/-- Embedding of backup_router_config in backup_configs.py lines 47-122:
connect, retrieve the running configuration, the version line and the
hostname line, write the timestamped artifact and then the latest
artifact (both with the same header and the raw configuration text
verbatim), disconnect, and return True with the timestamped file name.
Any exception inside the try block reaches the except clause, which
returns False without disconnecting and without completing the writes. -/
def backup_router_config (r : Router) (ts date_str : String) (b : BackupBehavior)
    (store : FileStore) : BackupRun :=
  match b.connect with
  | CallResult.exn _ => ⟨false, none, false, false, store⟩
  | CallResult.ok _ =>
    match b.showRun with
    | CallResult.exn _ => ⟨false, none, true, false, store⟩
    | CallResult.ok running_config =>
      match b.showVersion with
      | CallResult.exn _ => ⟨false, none, true, false, store⟩
      | CallResult.ok version_info =>
        match b.showHostname with
        | CallResult.exn _ => ⟨false, none, true, false, store⟩
        | CallResult.ok _ =>
          if b.writeOk then
            let art := backupArtifact date_str r version_info running_config
            let store1 := setFile store (timestampedName r ts) art
            let store2 := setFile store1 (latestName r) art
            ⟨true, some (timestampedName r ts), true, true, store2⟩
          else ⟨false, none, true, false, store⟩

/-- Whether one backup device succeeds; the control flow of
backup_router_config depends only on the behaviour, never on the store. -/
def backupOk (b : BackupBehavior) : Bool :=
  match b.connect, b.showRun, b.showVersion, b.showHostname with
  | CallResult.ok _, CallResult.ok _, CallResult.ok _, CallResult.ok _ => b.writeOk
  | _, _, _, _ => false

/-- One fleet entry of the backup workflow. -/
structure BackupDevice where
  router : Router
  behavior : BackupBehavior

/-- Device loop of the backup main, backup_configs.py lines 171-177:
each device is backed up against the store left by its predecessors, the
counters track the returned boolean. -/
def backupMain (ts date_str : String) (fleet : List BackupDevice) (store0 : FileStore) :
    RunSummary × FileStore :=
  fleet.foldl
    (fun acc d =>
      let run := backup_router_config d.router ts date_str d.behavior acc.2
      if run.result then (⟨acc.1.success + 1, acc.1.fail⟩, run.store)
      else (⟨acc.1.success, acc.1.fail + 1⟩, run.store))
    (⟨0, 0⟩, store0)

/-- Per-device result list of the backup loop, in fleet order. -/
def backupOutcomes (ts date_str : String) (fleet : List BackupDevice) (store0 : FileStore) :
    List Bool :=
  (fleet.foldl
    (fun acc d =>
      let run := backup_router_config d.router ts date_str d.behavior acc.2
      (acc.1 ++ [run.result], run.store))
    (([] : List Bool), store0)).1

/-- Exit status of the backup workflow main. -/
def backupMainExit (ts date_str : String) (fleet : List BackupDevice)
    (store0 : FileStore) : Nat :=
  exitOf (backupMain ts date_str fleet store0).1.fail

/-! ## Counting lemmas for the accumulation loops -/

lemma boolTally_go_fail (f : α → Bool) (l : List α) : ∀ init : RunSummary,
    (l.foldl
      (fun acc x =>
        if f x then ⟨acc.success + 1, acc.fail⟩ else ⟨acc.success, acc.fail + 1⟩)
      init).fail
      = init.fail + l.countP (fun x => !f x) := by
  induction l with
  | nil => intro init; simp
  | cons hd tl ih =>
    intro init
    simp only [List.foldl_cons, List.countP_cons]
    cases hf : f hd <;> simp [hf, ih] <;> omega

lemma boolTally_go_success (f : α → Bool) (l : List α) : ∀ init : RunSummary,
    (l.foldl
      (fun acc x =>
        if f x then ⟨acc.success + 1, acc.fail⟩ else ⟨acc.success, acc.fail + 1⟩)
      init).success
      = init.success + l.countP f := by
  induction l with
  | nil => intro init; simp
  | cons hd tl ih =>
    intro init
    simp only [List.foldl_cons, List.countP_cons]
    cases hf : f hd <;> simp [hf, ih] <;> omega

lemma boolTally_fail (f : α → Bool) (l : List α) :
    (boolTally f l).fail = l.countP (fun x => !f x) := by
  have h := boolTally_go_fail f l ⟨0, 0⟩
  simpa [boolTally] using h

lemma boolTally_success (f : α → Bool) (l : List α) :
    (boolTally f l).success = l.countP f := by
  have h := boolTally_go_success f l ⟨0, 0⟩
  simpa [boolTally] using h

lemma outcomeTally_go_fail (f : α → Outcome) (l : List α) : ∀ init : RunSummary,
    (l.foldl
      (fun acc x =>
        match f x with
        | Outcome.skipped => acc
        | Outcome.success => ⟨acc.success + 1, acc.fail⟩
        | Outcome.failure => ⟨acc.success, acc.fail + 1⟩)
      init).fail
      = init.fail + l.countP (fun x => decide (f x = Outcome.failure)) := by
  induction l with
  | nil => intro init; simp
  | cons hd tl ih =>
    intro init
    simp only [List.foldl_cons, List.countP_cons]
    cases hf : f hd <;> simp [hf, ih] <;> omega

lemma outcomeTally_fail (f : α → Outcome) (l : List α) :
    (outcomeTally f l).fail = l.countP (fun x => decide (f x = Outcome.failure)) := by
  have h := outcomeTally_go_fail f l ⟨0, 0⟩
  simpa [outcomeTally] using h

lemma exitOf_eq_zero (n : Nat) : exitOf n = 0 ↔ n = 0 := by
  unfold exitOf; split <;> simp_all

lemma exitOf_eq_one (n : Nat) : exitOf n = 1 ↔ n ≠ 0 := by
  unfold exitOf; split <;> simp_all

/-! ## Store independence of the backup control flow -/

lemma backup_result_eq (r : Router) (ts date_str : String) (b : BackupBehavior)
    (store : FileStore) :
    (backup_router_config r ts date_str b store).result = backupOk b := by
  obtain ⟨c, sr, sv, sh, w⟩ := b
  cases c <;> cases sr <;> cases sv <;> cases sh <;> cases w <;> rfl

lemma backupMain_go_fail (ts date_str : String) (fleet : List BackupDevice) :
    ∀ (init : RunSummary) (store : FileStore),
    (fleet.foldl
      (fun acc d =>
        let run := backup_router_config d.router ts date_str d.behavior acc.2
        if run.result then (⟨acc.1.success + 1, acc.1.fail⟩, run.store)
        else (⟨acc.1.success, acc.1.fail + 1⟩, run.store))
      (init, store)).1.fail
      = init.fail + fleet.countP (fun d => !backupOk d.behavior) := by
  induction fleet with
  | nil => intro init store; simp
  | cons hd tl ih =>
    intro init store
    simp only [backup_result_eq] at ih ⊢
    simp only [List.foldl_cons, List.countP_cons]
    cases hf : backupOk hd.behavior <;> simp [hf, ih] <;> omega

lemma backupMain_fail (ts date_str : String) (fleet : List BackupDevice)
    (store0 : FileStore) :
    (backupMain ts date_str fleet store0).1.fail
      = fleet.countP (fun d => !backupOk d.behavior) := by
  have h := backupMain_go_fail ts date_str fleet ⟨0, 0⟩ store0
  simpa [backupMain] using h

lemma backupOutcomes_go (ts date_str : String) (fleet : List BackupDevice) :
    ∀ (acc : List Bool) (store : FileStore),
    (fleet.foldl
      (fun acc d =>
        let run := backup_router_config d.router ts date_str d.behavior acc.2
        (acc.1 ++ [run.result], run.store))
      (acc, store)).1
      = acc ++ fleet.map (fun d => backupOk d.behavior) := by
  induction fleet with
  | nil => intro acc store; simp
  | cons hd tl ih =>
    intro acc store
    simp only [backup_result_eq] at ih ⊢
    simp only [List.foldl_cons, List.map_cons]
    rw [ih]
    simp

lemma backupOutcomes_eq_map (ts date_str : String) (fleet : List BackupDevice)
    (store0 : FileStore) :
    backupOutcomes ts date_str fleet store0
      = fleet.map (fun d => backupOk d.behavior) := by
  have h := backupOutcomes_go ts date_str fleet [] store0
  simpa [backupOutcomes] using h

/-! ## Header stripping -/

lemma newline_data : ("\n" : String).data = ['\n'] := rfl

lemma dropLinesList_chunk : ∀ (cs : List Char), '\n' ∉ cs → ∀ (n : Nat) (rest : List Char),
    dropLinesList (n + 1) (cs ++ '\n' :: rest) = dropLinesList n rest := by
  intro cs
  induction cs with
  | nil => intro _ n rest; simp [dropLinesList]
  | cons c cs ih =>
    intro h n rest
    have hc : ¬c = '\n' := fun hh => h (by simp [hh])
    have hcs : '\n' ∉ cs := fun hm => h (List.mem_cons_of_mem _ hm)
    simp only [List.cons_append, dropLinesList, if_neg hc]
    exact ih hcs n rest

lemma dropLines_joinNl (T : String) (ls : List String) (h : ∀ l ∈ ls, '\n' ∉ l.data) :
    dropLines ls.length (joinNl ls ++ T) = T := by
  induction ls with
  | nil =>
    apply String.ext
    simp [joinNl, dropLines, dropLinesList]
  | cons l ls ih =>
    have hl : '\n' ∉ l.data := h l (by simp)
    have hls : ∀ x ∈ ls, '\n' ∉ x.data := fun x hx => h x (by simp [hx])
    have hdata : ((l ++ "\n" ++ joinNl ls) ++ T).data
        = l.data ++ '\n' :: ((joinNl ls).data ++ T.data) := by
      simp [String.data_append, newline_data]
    show dropLines (ls.length + 1) ((l ++ "\n" ++ joinNl ls) ++ T) = T
    unfold dropLines
    rw [hdata, dropLinesList_chunk l.data hl]
    have hjoin : (joinNl ls).data ++ T.data = (joinNl ls ++ T).data :=
      (String.data_append _ _).symm
    rw [hjoin]
    exact ih hls

/-! ## Concrete example inputs used by scenario theorems -/

/-- OSPF config of the scenario in the spec: one area-0 network for R1
and no router-id entry. -/
def exOspfNoRid : OspfConfig :=
  ⟨1, [], [("R1", [⟨0, [⟨"10.0.0.0", "0.0.0.255"⟩]⟩])]⟩

/-- OSPF config whose router-id map contains an entry for R1 that is the
empty string. -/
def exOspfEmptyRid : OspfConfig :=
  ⟨1, [("R1", "")], [("R1", [⟨0, [⟨"10.0.0.0", "0.0.0.255"⟩]⟩])]⟩

/-- A small EIGRP section. -/
def exEigrp : EigrpConfig := ⟨100, []⟩

/-- Routing configuration with OSPF enabled. -/
def exRoutingCfg : RoutingConfig := ⟨true, false, exOspfNoRid, exEigrp⟩

/-- Routing configuration with neither protocol enabled. -/
def exRoutingCfgDisabled : RoutingConfig := ⟨false, false, exOspfNoRid, exEigrp⟩

/-- Routing device behaviour where every session call succeeds. -/
def exRoutingAllOk : RoutingBehavior :=
  ⟨CallResult.ok "", CallResult.ok "", CallResult.ok "",
   CallResult.ok "", CallResult.ok ""⟩

/-- Routing device behaviour whose verification command raises. -/
def exRoutingVerifyFail : RoutingBehavior :=
  ⟨CallResult.ok "", CallResult.ok "", CallResult.ok "",
   CallResult.exn "timeout", CallResult.ok ""⟩

/-- Routing device behaviour whose write memory save raises. -/
def exRoutingSaveFail : RoutingBehavior :=
  ⟨CallResult.ok "", CallResult.ok "", CallResult.ok "",
   CallResult.ok "", CallResult.exn "io error"⟩

/-- Subinterface spec whose vlan id 5000 lies outside 1-4094. -/
def exSubintf : SubinterfaceSpec :=
  ⟨"GigabitEthernet0/0.50", 5000, "10.50.0.1", "255.255.255.0", "VLAN50"⟩

/-- VLAN mapping carrying the out-of-range subinterface for R1. -/
def exVlanCfg : List (String × List SubinterfaceSpec) := [("R1", [exSubintf])]

/-- VLAN device R1 whose session calls all succeed. -/
def exVlanDeviceOk : VlanDevice :=
  ⟨"R1", ⟨CallResult.ok "", [CallResult.ok ""], CallResult.ok "", CallResult.ok ""⟩⟩

/-- VLAN device R9, absent from every mapping, whose connection raises. -/
def exVlanAbsent : VlanDevice :=
  ⟨"R9", ⟨CallResult.exn "timeout", [], CallResult.ok "", CallResult.ok ""⟩⟩

/-- VLAN device R9, absent from every mapping, whose connection succeeds. -/
def exVlanOkAbsent : VlanDevice :=
  ⟨"R9", ⟨CallResult.ok "", [], CallResult.ok "", CallResult.ok ""⟩⟩

/-- Interface workflow device R9 with a successful session. -/
def exIfaceDev : IfaceDevice :=
  ⟨"R9", ⟨CallResult.ok "", [], CallResult.ok ""⟩⟩

/-! ## Claim theorems -/

/-- C3: for every InterfaceSpec the generated command sequence is, in
order, interface-select, IP address assignment, description, then the
admin-state command, which is no shutdown when enabled is true or absent
and shutdown otherwise; the first three commands (and in particular the
address and description commands) occur strictly before the admin-state
command, which is the single final element. -/
theorem interface_commands_order (c : InterfaceSpec) :
    (configure_interface_commands c).take 3 =
      ["interface " ++ c.name,
       "ip address " ++ c.ip_address ++ " " ++ c.subnet_mask,
       "description " ++ c.description] ∧
    (configure_interface_commands c).drop 3 =
      [if c.enabled.getD true then "no shutdown" else "shutdown"] :=
  ⟨rfl, rfl⟩

/-- C4 counterexample: the OSPF router-id map contains an entry for R1
(the empty string), yet the generated command list contains no router-id
line, so the claim that the line is emitted whenever the map contains an
entry for this device is false on this input. -/
theorem ospf_empty_rid_cex :
    (exOspfEmptyRid.router_id_map.lookup "R1").isSome = true ∧
    configure_ospf_commands "R1" exOspfEmptyRid
      = ["router ospf 1", "network 10.0.0.0 0.0.0.255 area 0"] := by
  constructor
  · decide
  · decide

/-- C4 amended: the generated OSPF sequence is the process-entry
command, then a router-id line exactly when the router-id map contains a
non-empty entry for this device (an entry holding the empty string is
treated as absent, following Python truthiness), then one network
statement per configured area, network and wildcard triple for this
device, in the input list order; on the scenario input with one area-0
network for R1 and no router-id entry the output is the process entry
followed by the single network statement. -/
theorem ospf_commands_shape :
    (∀ (router_name : String) (cfg : OspfConfig),
      configure_ospf_commands router_name cfg
        = ["router ospf " ++ toString cfg.process_id]
          ++ ((cfg.router_id_map.lookup router_name).filter
                (fun rid => rid != "")).toList.map (fun rid => "router-id " ++ rid)
          ++ ((cfg.areas.lookup router_name).getD []).flatMap
              (fun ac =>
                ac.networks.map
                  (fun n =>
                    "network " ++ n.network ++ " " ++ n.wildcard ++ " area "
                      ++ toString ac.area))) ∧
    configure_ospf_commands "R1" exOspfNoRid
      = ["router ospf 1", "network 10.0.0.0 0.0.0.255 area 0"] := by
  constructor
  · intro router_name cfg
    unfold configure_ospf_commands
    cases h : cfg.router_id_map.lookup router_name with
    | none => simp [h, Option.filter]
    | some rid =>
      by_cases hr : rid = ""
      · subst hr; simp [h, Option.filter]
      · simp [h, hr, Option.filter]
  · decide

/-- C5 counterexample: the subinterface spec exSubintf has vlan id 5000,
outside 1-4094, yet command generation performs no validation: it
produces the full non-empty command sequence and the workflow submits it
to the device. -/
theorem subinterface_no_validation_cex :
    4094 < exSubintf.vlan ∧
    configure_subinterface_commands exSubintf ≠ [] ∧
    (vlanConnectAndConfigure exVlanCfg exVlanDeviceOk).sent
      = [configure_subinterface_commands exSubintf] := by
  refine ⟨by decide, by decide, ?_⟩
  decide

/-- C5 amended: subinterface command generation never validates the vlan
id: for every SubinterfaceSpec, including any with vlan id outside
1-4094, it produces the full five-command sequence (interface-select,
encapsulation with the vlan id, address, description, enable), which is
in particular never empty. -/
theorem subinterface_commands_unvalidated (s : SubinterfaceSpec) :
    configure_subinterface_commands s =
      ["interface " ++ s.interface,
       "encapsulation dot1Q " ++ toString s.vlan,
       "ip address " ++ s.ip_address ++ " " ++ s.subnet_mask,
       "description " ++ s.description,
       "no shutdown"] ∧
    configure_subinterface_commands s ≠ [] := by
  exact ⟨rfl, by simp [configure_subinterface_commands]⟩

/-- C6 counterexample: device R9 is absent from the VLAN mapping, yet
the VLAN workflow connects to it before consulting the mapping; its
connection raises, so the run records a failure for R9 and counts it in
the failure count, contradicting the claim that a device absent from the
mapping is recorded as skipped and never as a failure. -/
theorem vlan_absent_device_failure_cex :
    (([] : List (String × List SubinterfaceSpec)).lookup "R9") = none ∧
    (vlanConnectAndConfigure [] exVlanAbsent).result = false ∧
    vlanSummary [] [exVlanAbsent] = ⟨0, 1⟩ := by
  refine ⟨rfl, rfl, ?_⟩
  decide

/-- C6 amended: a device absent from the interface mapping is skipped by
the interface workflow before any connection, touching neither counter;
the VLAN workflow instead connects first and only then consults the
mapping, so an absent device is recorded as a success with no command
set sent when the connection succeeds, and as a failure when the
connection raises. -/
theorem absent_mapping_outcomes :
    (∀ (mapping : List (String × List InterfaceSpec)) (d : IfaceDevice),
        mapping.lookup d.name = none →
          ifaceDeviceOutcome mapping d = Outcome.skipped) ∧
    (∀ (vcfg : List (String × List SubinterfaceSpec)) (d : VlanDevice) (t : String),
        vcfg.lookup d.name = none → d.behavior.connect = CallResult.ok t →
          (vlanConnectAndConfigure vcfg d).result = true ∧
          (vlanConnectAndConfigure vcfg d).sent = []) ∧
    (∀ (vcfg : List (String × List SubinterfaceSpec)) (d : VlanDevice) (m : String),
        d.behavior.connect = CallResult.exn m →
          (vlanConnectAndConfigure vcfg d).result = false) := by
  refine ⟨?_, ?_, ?_⟩
  · intro mapping d h
    simp [ifaceDeviceOutcome, h]
  · intro vcfg d t hl hc
    simp [vlanConnectAndConfigure, hc, hl]
  · intro vcfg d m hc
    simp [vlanConnectAndConfigure, hc]

/-- C6 amended witness: the amended statement applied to the empty
mapping, a skipped interface device, a successfully connected VLAN
device and a VLAN device whose connection raises. -/
theorem absent_mapping_outcomes_witness :
    ifaceDeviceOutcome [] exIfaceDev = Outcome.skipped ∧
    ((vlanConnectAndConfigure [] exVlanOkAbsent).result = true ∧
      (vlanConnectAndConfigure [] exVlanOkAbsent).sent = []) ∧
    (vlanConnectAndConfigure [] exVlanAbsent).result = false :=
  ⟨absent_mapping_outcomes.1 [] exIfaceDev (by decide),
   absent_mapping_outcomes.2.1 [] exVlanOkAbsent "" (by decide) rfl,
   absent_mapping_outcomes.2.2 [] exVlanAbsent "timeout" rfl⟩

/-- C8 counterexample: a routing device whose session opens and whose
write memory save raises ends the workflow through the except clause; the
session was opened but disconnect is never executed, so the transport
handle is leaked on this exit path. -/
theorem session_leak_cex :
    (routingConnectAndConfigure exRoutingCfg exRoutingSaveFail).opened = true ∧
    (routingConnectAndConfigure exRoutingCfg exRoutingSaveFail).closed = false :=
  ⟨rfl, rfl⟩

/-- C8 amended: in every workflow the session is closed exactly on the
exit paths where the per-device workflow completes and returns True
(including the VLAN early return for an unmapped device); on every
thrown-error exit path after a successful connection the except clause
returns without calling disconnect, leaking the handle. -/
theorem session_close_iff_success :
    (∀ (b : IfaceBehavior) (specs : List InterfaceSpec),
        (ifaceConnectAndConfigure b specs).closed
          = (ifaceConnectAndConfigure b specs).result) ∧
    (∀ (vcfg : List (String × List SubinterfaceSpec)) (d : VlanDevice),
        (vlanConnectAndConfigure vcfg d).closed
          = (vlanConnectAndConfigure vcfg d).result) ∧
    (∀ (cfg : RoutingConfig) (b : RoutingBehavior),
        (routingConnectAndConfigure cfg b).closed
          = (routingConnectAndConfigure cfg b).result) ∧
    (∀ (r : Router) (ts date_str : String) (b : BackupBehavior) (store : FileStore),
        (backup_router_config r ts date_str b store).closed
          = (backup_router_config r ts date_str b store).result) := by
  refine ⟨?_, ?_, ?_, ?_⟩
  · intro b specs
    unfold ifaceConnectAndConfigure
    cases b.connect <;> cases b.save <;> rfl
  · intro vcfg d
    unfold vlanConnectAndConfigure
    cases d.behavior.connect with
    | exn m => rfl
    | ok t =>
      by_cases he : ((vcfg.lookup d.name).getD []).isEmpty
      · simp [he]
      · simp [he]
        cases d.behavior.verify <;> cases d.behavior.save <;> rfl
  · intro cfg b
    unfold routingConnectAndConfigure
    cases b.connect <;> cases b.verify <;> cases b.save <;> rfl
  · intro r ts date_str b store
    obtain ⟨c, sr, sv, sh, w⟩ := b
    cases c <;> cases sr <;> cases sv <;> cases sh <;> cases w <;> rfl

/-- C9 counterexample: a routing device whose connection, applications
and save would all succeed but whose read-only verification command
raises is recorded as a failure, while the identical device with a
succeeding verification is recorded as a success: the verification
failure changes the recorded outcome. -/
theorem verify_failure_changes_outcome_cex :
    (routingConnectAndConfigure exRoutingCfg exRoutingVerifyFail).result = false ∧
    (routingConnectAndConfigure exRoutingCfg exRoutingAllOk).result = true :=
  ⟨rfl, rfl⟩

/-- C9 amended: the verification output is never parsed or asserted
against, so the recorded outcome is invariant under the text the
verification command returns; but an exception raised while executing
the verification command propagates to the except clause, and a device
that reaches the verifying step with a raising verification command is
recorded as a failure. -/
theorem verify_best_effort :
    (∀ (cfg : RoutingConfig) (cn o e sv : CallResult) (s t : String),
        routingConnectAndConfigure cfg ⟨cn, o, e, CallResult.ok s, sv⟩
          = routingConnectAndConfigure cfg ⟨cn, o, e, CallResult.ok t, sv⟩) ∧
    (∀ (cfg : RoutingConfig) (o e sv : CallResult) (c m : String),
        (routingConnectAndConfigure cfg
            ⟨CallResult.ok c, o, e, CallResult.exn m, sv⟩).result = false) ∧
    (∀ (vcfg : List (String × List SubinterfaceSpec)) (name : String)
        (ap : List CallResult) (sv : CallResult) (c s t : String),
        vlanConnectAndConfigure vcfg ⟨name, ⟨CallResult.ok c, ap, CallResult.ok s, sv⟩⟩
          = vlanConnectAndConfigure vcfg ⟨name, ⟨CallResult.ok c, ap, CallResult.ok t, sv⟩⟩) ∧
    (∀ (vcfg : List (String × List SubinterfaceSpec)) (name : String)
        (ap : List CallResult) (sv : CallResult) (c m : String),
        ((vcfg.lookup name).getD []).isEmpty = false →
          (vlanConnectAndConfigure vcfg
              ⟨name, ⟨CallResult.ok c, ap, CallResult.exn m, sv⟩⟩).result = false) := by
  refine ⟨?_, ?_, ?_, ?_⟩
  · intro cfg cn o e sv s t
    unfold routingConnectAndConfigure
    cases cn <;> cases sv <;> rfl
  · intro cfg o e sv c m
    rfl
  · intro vcfg name ap sv c s t
    unfold vlanConnectAndConfigure
    by_cases he : ((vcfg.lookup name).getD []).isEmpty
    · simp [he]
    · simp [he]
  · intro vcfg name ap sv c m he
    unfold vlanConnectAndConfigure
    simp [he]

/-- C9 amended witness: the amended statement applied to the example
routing configuration, concrete behaviours and the VLAN mapping that
carries one subinterface for R1. -/
theorem verify_best_effort_witness :
    (routingConnectAndConfigure exRoutingCfg
        ⟨CallResult.ok "", CallResult.ok "", CallResult.ok "",
         CallResult.ok "a", CallResult.ok ""⟩
      = routingConnectAndConfigure exRoutingCfg
        ⟨CallResult.ok "", CallResult.ok "", CallResult.ok "",
         CallResult.ok "b", CallResult.ok ""⟩) ∧
    (routingConnectAndConfigure exRoutingCfg
        ⟨CallResult.ok "", CallResult.ok "", CallResult.ok "",
         CallResult.exn "timeout", CallResult.ok ""⟩).result = false ∧
    (vlanConnectAndConfigure exVlanCfg
        ⟨"R1", ⟨CallResult.ok "", [CallResult.ok ""], CallResult.ok "a", CallResult.ok ""⟩⟩
      = vlanConnectAndConfigure exVlanCfg
        ⟨"R1", ⟨CallResult.ok "", [CallResult.ok ""], CallResult.ok "b", CallResult.ok ""⟩⟩) ∧
    (vlanConnectAndConfigure exVlanCfg
        ⟨"R1", ⟨CallResult.ok "", [CallResult.ok ""], CallResult.exn "boom",
          CallResult.ok ""⟩⟩).result = false :=
  ⟨verify_best_effort.1 exRoutingCfg (CallResult.ok "") (CallResult.ok "")
      (CallResult.ok "") (CallResult.ok "") "a" "b",
   verify_best_effort.2.1 exRoutingCfg (CallResult.ok "") (CallResult.ok "")
      (CallResult.ok "") "" "timeout",
   verify_best_effort.2.2.1 exVlanCfg "R1" [CallResult.ok ""] (CallResult.ok "")
      "" "a" "b",
   verify_best_effort.2.2.2 exVlanCfg "R1" [CallResult.ok ""] (CallResult.ok "")
      "" "boom" (by decide)⟩

/-! ## More counting helpers -/

lemma countP_add_countP_not (p : α → Bool) (l : List α) :
    l.countP p + l.countP (fun x => !p x) = l.length := by
  induction l with
  | nil => simp
  | cons hd tl ih =>
    rw [List.countP_cons, List.countP_cons]
    cases h : p hd <;> simp [h] <;> omega

lemma backupMain_go_success (ts date_str : String) (fleet : List BackupDevice) :
    ∀ (init : RunSummary) (store : FileStore),
    (fleet.foldl
      (fun acc d =>
        let run := backup_router_config d.router ts date_str d.behavior acc.2
        if run.result then (⟨acc.1.success + 1, acc.1.fail⟩, run.store)
        else (⟨acc.1.success, acc.1.fail + 1⟩, run.store))
      (init, store)).1.success
      = init.success + fleet.countP (fun d => backupOk d.behavior) := by
  induction fleet with
  | nil => intro init store; simp
  | cons hd tl ih =>
    intro init store
    simp only [backup_result_eq] at ih ⊢
    simp only [List.foldl_cons, List.countP_cons]
    cases hf : backupOk hd.behavior <;> simp [hf, ih] <;> omega

lemma backupMain_success (ts date_str : String) (fleet : List BackupDevice)
    (store0 : FileStore) :
    (backupMain ts date_str fleet store0).1.success
      = fleet.countP (fun d => backupOk d.behavior) := by
  have h := backupMain_go_success ts date_str fleet ⟨0, 0⟩ store0
  simpa [backupMain] using h

lemma exitOf_countP_eq_zero (p : α → Bool) (l : List α) :
    exitOf (l.countP p) = 0 ↔ ∀ a ∈ l, ¬ p a := by
  rw [exitOf_eq_zero]
  exact List.countP_eq_zero

lemma exitOf_countP_eq_one (p : α → Bool) (l : List α) :
    exitOf (l.countP p) = 1 ↔ ∃ a ∈ l, p a := by
  rw [exitOf_eq_one, ← List.countP_pos_iff, Nat.pos_iff_ne_zero]

/-- C1: in each of the four workflows the process exit status is 0 if
and only if every device processed in the run succeeded its workflow
(skipped interface devices and the routing early return process no
device), and it is 1 if and only if at least one processed device
failed. -/
theorem exit_status_iff :
    (∀ (mapping : List (String × List InterfaceSpec)) (fleet : List IfaceDevice),
        (ifaceMainExit mapping fleet = 0 ↔
          ∀ d ∈ fleet, ifaceDeviceOutcome mapping d ≠ Outcome.failure) ∧
        (ifaceMainExit mapping fleet = 1 ↔
          ∃ d ∈ fleet, ifaceDeviceOutcome mapping d = Outcome.failure)) ∧
    (∀ (vcfg : List (String × List SubinterfaceSpec)) (fleet : List VlanDevice),
        (vlanMainExit vcfg fleet = 0 ↔
          ∀ d ∈ fleet, (vlanConnectAndConfigure vcfg d).result = true) ∧
        (vlanMainExit vcfg fleet = 1 ↔
          ∃ d ∈ fleet, (vlanConnectAndConfigure vcfg d).result = false)) ∧
    (∀ (cfg : RoutingConfig) (fleet : List RoutingBehavior),
        ((routingMain cfg fleet).1 = 0 ↔
          ∀ r ∈ (routingMain cfg fleet).2, r.result = true) ∧
        ((routingMain cfg fleet).1 = 1 ↔
          ∃ r ∈ (routingMain cfg fleet).2, r.result = false)) ∧
    (∀ (ts date_str : String) (fleet : List BackupDevice) (store0 : FileStore),
        (backupMainExit ts date_str fleet store0 = 0 ↔
          ∀ b ∈ backupOutcomes ts date_str fleet store0, b = true) ∧
        (backupMainExit ts date_str fleet store0 = 1 ↔
          ∃ b ∈ backupOutcomes ts date_str fleet store0, b = false)) := by
  refine ⟨?_, ?_, ?_, ?_⟩
  · intro mapping fleet
    unfold ifaceMainExit ifaceSummary
    rw [outcomeTally_fail]
    refine ⟨?_, ?_⟩
    · rw [exitOf_countP_eq_zero]
      simp
    · rw [exitOf_countP_eq_one]
      simp
  · intro vcfg fleet
    unfold vlanMainExit vlanSummary
    rw [boolTally_fail]
    refine ⟨?_, ?_⟩
    · rw [exitOf_countP_eq_zero]
      simp
    · rw [exitOf_countP_eq_one]
      simp
  · intro cfg fleet
    by_cases hen : (cfg.ospfEnabled || cfg.eigrpEnabled) = true
    · unfold routingMain routingSummary routingOutcomes
      rw [if_pos hen, boolTally_fail]
      refine ⟨?_, ?_⟩
      · rw [exitOf_countP_eq_zero]
        simp
      · rw [exitOf_countP_eq_one]
        simp
    · unfold routingMain
      rw [if_neg hen]
      simp
  · intro ts date_str fleet store0
    unfold backupMainExit
    rw [backupMain_fail, backupOutcomes_eq_map]
    refine ⟨?_, ?_⟩
    · rw [exitOf_countP_eq_zero]
      simp
    · rw [exitOf_countP_eq_one]
      simp

/-- C2: the routing and backup device loops record exactly one outcome
per device of the fleet, the failure count of the run equals the number
of devices whose workflow did not complete successfully, success and
failure counts sum to the fleet size, and replacing the behaviour of the
device at any one position (for example by a failing one) leaves the
recorded outcomes of all devices before and after that position
unchanged: one device never aborts or perturbs the rest of the run. -/
theorem fleet_isolation :
    (∀ (cfg : RoutingConfig) (fleet : List RoutingBehavior),
        (routingOutcomes cfg fleet).length = fleet.length ∧
        (routingSummary cfg fleet).fail
          = ((routingOutcomes cfg fleet).filter (fun r => !r.result)).length ∧
        (routingSummary cfg fleet).success + (routingSummary cfg fleet).fail
          = fleet.length) ∧
    (∀ (cfg : RoutingConfig) (pre post : List RoutingBehavior) (b bf : RoutingBehavior),
        (routingOutcomes cfg (pre ++ bf :: post)).take pre.length
          = (routingOutcomes cfg (pre ++ b :: post)).take pre.length ∧
        (routingOutcomes cfg (pre ++ bf :: post)).drop (pre.length + 1)
          = (routingOutcomes cfg (pre ++ b :: post)).drop (pre.length + 1)) ∧
    (∀ (ts date_str : String) (fleet : List BackupDevice) (store0 : FileStore),
        (backupOutcomes ts date_str fleet store0).length = fleet.length ∧
        (backupMain ts date_str fleet store0).1.fail
          = ((backupOutcomes ts date_str fleet store0).filter (fun r => !r)).length ∧
        (backupMain ts date_str fleet store0).1.success
            + (backupMain ts date_str fleet store0).1.fail
          = fleet.length) ∧
    (∀ (ts date_str : String) (pre post : List BackupDevice) (d df : BackupDevice)
        (store0 : FileStore),
        (backupOutcomes ts date_str (pre ++ df :: post) store0).take pre.length
          = (backupOutcomes ts date_str (pre ++ d :: post) store0).take pre.length ∧
        (backupOutcomes ts date_str (pre ++ df :: post) store0).drop (pre.length + 1)
          = (backupOutcomes ts date_str (pre ++ d :: post) store0).drop (pre.length + 1)) := by
  have htake :
      ∀ (α β : Type) (g : α → β) (pre post : List α) (x : α),
        (List.map g (pre ++ x :: post)).take pre.length = List.map g pre := by
    intro α β g pre post x
    rw [List.map_append]
    exact List.take_left' (by simp)
  have hdrop :
      ∀ (α β : Type) (g : α → β) (pre post : List α) (x : α),
        (List.map g (pre ++ x :: post)).drop (pre.length + 1) = List.map g post := by
    intro α β g pre post x
    rw [show pre ++ x :: post = (pre ++ [x]) ++ post by simp]
    rw [List.map_append]
    exact List.drop_left' (by simp)
  refine ⟨?_, ?_, ?_, ?_⟩
  · intro cfg fleet
    unfold routingSummary routingOutcomes
    rw [boolTally_fail, boolTally_success]
    refine ⟨by simp, ?_, ?_⟩
    · rw [← List.countP_eq_length_filter, List.countP_map]
      rfl
    · exact countP_add_countP_not _ fleet
  · intro cfg pre post b bf
    unfold routingOutcomes
    rw [htake, htake, hdrop, hdrop]
    exact ⟨rfl, rfl⟩
  · intro ts date_str fleet store0
    rw [backupOutcomes_eq_map, backupMain_fail, backupMain_success]
    refine ⟨by simp, ?_, ?_⟩
    · rw [← List.countP_eq_length_filter, List.countP_map]
      rfl
    · exact countP_add_countP_not _ fleet
  · intro ts date_str pre post d df store0
    rw [backupOutcomes_eq_map, backupOutcomes_eq_map]
    rw [htake, htake, hdrop, hdrop]
    exact ⟨rfl, rfl⟩

/-- C7: when a backup of device r succeeds with configuration text T,
version line and header timestamp free of newlines, the store afterwards
maps both the timestamped artifact name and the latest artifact name to
the same artifact, the latest entry having overwritten whatever content
it held before; and stripping the seven fixed header lines from the
artifact recovers T exactly, with no re-formatting or truncation. -/
theorem backup_round_trip (r : Router) (ts date_str version_info T orig : String)
    (store : FileStore) (run : BackupRun)
    (hrun : run = backup_router_config r ts date_str
      ⟨CallResult.ok "", CallResult.ok T, CallResult.ok version_info,
       CallResult.ok "", true⟩
      (setFile store (latestName r) orig))
    (h1 : '\n' ∉ date_str.data) (h2 : '\n' ∉ r.name.data)
    (h3 : '\n' ∉ r.ip.data) (h4 : '\n' ∉ version_info.data) :
    run.result = true ∧
    run.store (latestName r)
      = some (backupArtifact date_str r version_info T) ∧
    run.store (timestampedName r ts)
      = some (backupArtifact date_str r version_info T) ∧
    dropLines 7 (backupArtifact date_str r version_info T) = T := by
  subst hrun
  refine ⟨rfl, ?_, ?_, ?_⟩
  · show setFile _ (latestName r) _ (latestName r) = _
    simp [setFile]
  · show setFile _ (latestName r) _ (timestampedName r ts) = _
    unfold setFile
    by_cases hk : timestampedName r ts = latestName r
    · simp [hk]
    · simp [hk]
  · have no_newline_append : ∀ (a b : String), '\n' ∉ a.data → '\n' ∉ b.data →
        '\n' ∉ (a ++ b).data := by
      intro a b ha hb
      rw [String.data_append]
      intro hm
      rcases List.mem_append.mp hm with h | h
      · exact ha h
      · exact hb h
    have hdash : '\n' ∉ (String.mk (List.replicate 70 '-')).data := by decide
    have hh : ∀ l ∈ headerLines date_str r version_info, '\n' ∉ l.data := by
      intro l hl
      simp only [headerLines, List.mem_cons, List.not_mem_nil, or_false] at hl
      rcases hl with h | h | h | h | h | h | h <;> subst h
      · exact no_newline_append _ _ (by decide) h1
      · exact no_newline_append _ _ (by decide) h2
      · exact no_newline_append _ _ (by decide) h3
      · exact no_newline_append _ _ (by decide) h4
      · decide
      · exact no_newline_append _ _ (by decide) hdash
      · decide
    have hlen : (headerLines date_str r version_info).length = 7 := rfl
    have := dropLines_joinNl T (headerLines date_str r version_info) hh
    rw [hlen] at this
    exact this

/-- Concrete inventory entry for the backup scenario. -/
def exRouter : Router := ⟨"R1", "192.168.1.1"⟩

/-- Concrete backup behaviour: every call succeeds, the device returns a
two-line configuration and a version line. -/
def exBackupBehavior : BackupBehavior :=
  ⟨CallResult.ok "", CallResult.ok "hostname R1\nend",
   CallResult.ok "Cisco IOS Version 15.2", CallResult.ok "", true⟩

/-- Concrete prior store, empty except for a stale latest artifact. -/
def exStore0 : FileStore := fun _ => none

/-- C7 witness: the round-trip theorem applied to a concrete device,
timestamp, version line and configuration text containing a newline,
over a store that already holds stale latest content. -/
theorem backup_round_trip_witness :
    (backup_router_config exRouter "20250101_120000" "2025-01-01 12:00:00"
        exBackupBehavior (setFile exStore0 (latestName exRouter) "OLD")).result = true ∧
    (backup_router_config exRouter "20250101_120000" "2025-01-01 12:00:00"
        exBackupBehavior (setFile exStore0 (latestName exRouter) "OLD")).store
        (latestName exRouter)
      = some (backupArtifact "2025-01-01 12:00:00" exRouter
          "Cisco IOS Version 15.2" "hostname R1\nend") ∧
    (backup_router_config exRouter "20250101_120000" "2025-01-01 12:00:00"
        exBackupBehavior (setFile exStore0 (latestName exRouter) "OLD")).store
        (timestampedName exRouter "20250101_120000")
      = some (backupArtifact "2025-01-01 12:00:00" exRouter
          "Cisco IOS Version 15.2" "hostname R1\nend") ∧
    dropLines 7 (backupArtifact "2025-01-01 12:00:00" exRouter
          "Cisco IOS Version 15.2" "hostname R1\nend") = "hostname R1\nend" :=
  backup_round_trip exRouter "20250101_120000" "2025-01-01 12:00:00"
    "Cisco IOS Version 15.2" "hostname R1\nend" "OLD" exStore0 _ rfl
    (by decide) (by decide) (by decide) (by decide)

/-- C10: when neither OSPF nor EIGRP is enabled in the routing
configuration, the routing main returns exit status 0 after the warning
and produces no per-device runs at all: no session is opened to any
device of the fleet. -/
theorem routing_disabled_guard (cfg : RoutingConfig) (fleet : List RoutingBehavior)
    (h1 : cfg.ospfEnabled = false) (h2 : cfg.eigrpEnabled = false) :
    routingMain cfg fleet = (0, []) := by
  unfold routingMain
  rw [h1, h2]
  rfl

/-- C10 witness: the guard theorem applied to the disabled configuration
and a two-device fleet. -/
theorem routing_disabled_guard_witness :
    exRoutingCfgDisabled.ospfEnabled = false ∧
    exRoutingCfgDisabled.eigrpEnabled = false ∧
    routingMain exRoutingCfgDisabled [exRoutingAllOk, exRoutingSaveFail] = (0, []) :=
  ⟨rfl, rfl,
   routing_disabled_guard exRoutingCfgDisabled [exRoutingAllOk, exRoutingSaveFail] rfl rfl⟩
